import Mathlib

/-!
Shallow embedding of `src/engine.py` (reason-engines).

Python values that can appear in a parsed JSON document are modelled by the
inductive type `JVal`; numbers are modelled by exact rationals.  Python
evaluation that may raise an uncaught exception is modelled by
`Except String`, where `Except.error` carries the exception description and
`Except.ok` is a normal return.  Each helper mirrors the semantics of the
Python operation it is named after (attribute errors on `.get`/`.lower` of
non-dict/non-string values, type errors on unhashable dictionary keys, on
non-iterable values and on passing a dict to `open`).  String lowering is
modelled for the ASCII alphabet, which covers every string the program's
tables and claims use.
-/

/-- A parsed JSON-compatible Python value.  `obj` models a `dict` with
string keys (unique in any document produced by `json.load`); `num` models
both `int` and `float` by an exact rational. -/
inductive JVal where
  | null
  | boolean (b : Bool)
  | num (q : ℚ)
  | str (s : String)
  | arr (elems : List JVal)
  | obj (fields : List (String × JVal))
deriving Repr

/-- ASCII lowering of one character, as Python `str.lower` acts on ASCII. -/
def charLower (c : Char) : Char := Char.toLower c

/-- ASCII lowering of a string, modelling Python `str.lower`. -/
def strLower (s : String) : String := String.mk (s.data.map charLower)

/-- Python `needle in hay` on strings: contiguous substring test. -/
def strContains (hay needle : String) : Bool := decide (needle.data <:+: hay.data)

/-- Python truthiness of a value (`bool(v)`). -/
def pyTruthy : JVal → Bool
  | .null => false
  | .boolean b => b
  | .num q => decide (q ≠ 0)
  | .str s => decide (s ≠ "")
  | .arr xs => !xs.isEmpty
  | .obj fs => !fs.isEmpty

/-- First binding of a key in a dict's field list (keys are unique in any
document coming from `json.load`, so the order of search is immaterial). -/
def objFind : List (String × JVal) → String → Option JVal
  | [], _ => none
  | (k, v) :: rest, key => if k = key then some v else objFind rest key

/-- Python `v == someString` for a string literal on the right: equality
holds only when `v` is that string; no exception for other types. -/
def jvalEqStr (v : JVal) (t : String) : Bool :=
  match v with
  | .str s => s = t
  | _ => false

/-- Python `d.get(key, dflt)`: only dicts have `.get`; any other value
raises `AttributeError`. -/
def pyGet (v : JVal) (key : String) (dflt : JVal) : Except String JVal :=
  match v with
  | .obj fs => .ok ((objFind fs key).getD dflt)
  | _ => .error "AttributeError: object has no attribute get"

/-- Python `key in v` for a string `key`: key membership for dicts, element
equality for lists, substring test for strings; `TypeError` otherwise. -/
def pyIn (key : String) (v : JVal) : Except String Bool :=
  match v with
  | .obj fs => .ok (fs.any (fun kv => kv.1 = key))
  | .arr xs => .ok (xs.any (fun x => jvalEqStr x key))
  | .str s => .ok (strContains s key)
  | _ => .error "TypeError: argument of type is not iterable"

/-- Python `v[key]` for a string `key`: dict lookup (`KeyError` when the
key is absent); lists and strings only accept integer indices. -/
def pyIndex (v : JVal) (key : String) : Except String JVal :=
  match v with
  | .obj fs =>
      match objFind fs key with
      | some x => .ok x
      | none => .error "KeyError"
  | _ => .error "TypeError: indices must be integers"

/-- Python `iter(v)` collected to a list: lists yield their elements,
strings their characters, dicts their keys; `TypeError` otherwise. -/
def pyIter : JVal → Except String (List JVal)
  | .arr xs => .ok xs
  | .str s => .ok (s.data.map (fun c => .str (String.mk [c])))
  | .obj fs => .ok (fs.map (fun kv => .str kv.1))
  | _ => .error "TypeError: object is not iterable"

/-- Python `v.copy()`: dicts and lists have a shallow `copy`; other values
raise `AttributeError`. -/
def pyCopy : JVal → Except String JVal
  | .obj fs => .ok (.obj fs)
  | .arr xs => .ok (.arr xs)
  | _ => .error "AttributeError: object has no attribute copy"

/-- Python `v.lower()`: only strings have `.lower`. -/
def pyStrLower : JVal → Except String String
  | .str s => .ok (strLower s)
  | _ => .error "AttributeError: object has no attribute lower"

/-- Python `n - v` for an integer literal `n`: numbers subtract, `bool`
coerces to 0/1, anything else raises `TypeError`. -/
def pySubFrom (n : ℚ) (v : JVal) : Except String ℚ :=
  match v with
  | .num q => .ok (n - q)
  | .boolean b => .ok (n - (if b then 1 else 0))
  | _ => .error "TypeError: unsupported operand types for subtraction"

/-- Association-list lookup with a default, mirroring Python
`table.get(s, dflt)` on a string key. -/
def alookup (tbl : List (String × ℚ)) (s : String) (dflt : ℚ) : ℚ :=
  match tbl with
  | [] => dflt
  | (k, v) :: rest => if k = s then v else alookup rest s dflt

/-- Python `table.get(v, dflt)` where `table` has string keys and rational
values: a string key is looked up, other hashable values miss and yield the
default, unhashable values (lists, dicts) raise `TypeError`. -/
def hashLookup (tbl : List (String × ℚ)) (v : JVal) (dflt : ℚ) : Except String ℚ :=
  match v with
  | .str s => .ok (alookup tbl s dflt)
  | .arr _ => .error "TypeError: unhashable type"
  | .obj _ => .error "TypeError: unhashable type"
  | _ => .ok dflt

/-- Integer-valued variant of `alookup`. -/
def alookupZ (tbl : List (String × ℤ)) (s : String) (dflt : ℤ) : ℤ :=
  match tbl with
  | [] => dflt
  | (k, v) :: rest => if k = s then v else alookupZ rest s dflt

/-- Integer-valued variant of `hashLookup`. -/
def hashLookupZ (tbl : List (String × ℤ)) (v : JVal) (dflt : ℤ) : Except String ℤ :=
  match v with
  | .str s => .ok (alookupZ tbl s dflt)
  | .arr _ => .error "TypeError: unhashable type"
  | .obj _ => .error "TypeError: unhashable type"
  | _ => .ok dflt

/-- String-valued association lookup with default. -/
def alookupS (tbl : List (String × String)) (s : String) (dflt : String) : String :=
  match tbl with
  | [] => dflt
  | (k, v) :: rest => if k = s then v else alookupS rest s dflt

/-- String-valued variant of `hashLookup`. -/
def hashLookupS (tbl : List (String × String)) (v : JVal) (dflt : String) :
    Except String String :=
  match v with
  | .str s => .ok (alookupS tbl s dflt)
  | .arr _ => .error "TypeError: unhashable type"
  | .obj _ => .error "TypeError: unhashable type"
  | _ => .ok dflt

/-- Python `str(v)` as used inside an f-string, for the value kinds the
program can reach there: strings verbatim, integers and booleans rendered;
container rendering is abbreviated (no claim depends on it). -/
def pyFormat : JVal → String
  | .str s => s
  | .num q => if q.den = 1 then toString q.num else toString q
  | .boolean b => if b then "True" else "False"
  | .null => "None"
  | .arr _ => "[...]"
  | .obj _ => "\x7b...\x7d"

/-- What the external resource behind a path holds: absent, unparsable, or
a parsed JSON document. -/
inductive FileContents where
  | missing
  | invalidJson
  | jsonDoc (j : JVal)

/-- The argument the program hands to `read_input_file`: either a path to
an external resource, or — as happens inside `evaluate_consensus` — an
in-memory Python dict passed where a path is expected. -/
inductive FileInput where
  | path (contents : FileContents)
  | pyDict (doc : JVal)

/-- Exception text raised by CPython when `open` receives a dict. -/
def openDictTypeError : String :=
  "TypeError: expected str, bytes or os.PathLike object, not dict"

/-- `read_input_file` (engine.py lines 4-11): returns the parsed document,
or an error dict for a missing file or invalid JSON.  `open` on a dict
raises `TypeError`, which the two `except` clauses do not catch. -/
def read_input_file : FileInput → Except String JVal
  | .path .missing => .ok (.obj [("error", .str "File not found")])
  | .path .invalidJson => .ok (.obj [("error", .str "Invalid JSON format")])
  | .path (.jsonDoc j) => .ok j
  | .pyDict _ => .error openDictTypeError

/-- Result of `confidence_score_source`: the computed float score, or any
other returned Python value (error strings, echoed `error` fields). -/
inductive ScoreResult where
  | score (q : ℚ)
  | ret (v : JVal)
deriving Repr

/-- `source_types` table (engine.py line 37). -/
def source_types : List (String × ℚ) := [("primary", 0.9), ("secondary", 0.6), ("opinion", 0.3)]

/-- `authorities` table (engine.py line 46). -/
def authorities : List (String × ℚ) := [("academic", 0.9), ("government", 0.8), ("news", 0.5), ("blog", 0.2)]

/-- The year literal hard-coded at engine.py line 41 as "the current year". -/
def current_year : ℚ := 2025

/-- Recency sub-score (engine.py line 42): `max(0, 1 - years_old / 5)`. -/
def recency_score (years_old : ℚ) : ℚ := max 0 (1 - years_old / 5)

/-- The clamp applied at engine.py line 49: `min(max(score, 0.0), 1.0)`. -/
def clamp01 (q : ℚ) : ℚ := min (max q 0) 1

/-- Body of `confidence_score_source` on a non-empty source dict
(engine.py lines 34-49): weighted sum of type, recency and authority
sub-scores, clamped to [0, 1]. -/
def computeScore (source_data : JVal) : Except String ℚ := do
  let tv ← pyGet source_data "type" (.str "opinion")
  let tScore ← hashLookup source_types tv 0.3
  let yv ← pyGet source_data "year" (.num 2025)
  let years_old ← pySubFrom 2025 yv
  let av ← pyGet source_data "authority" (.str "blog")
  let aScore ← hashLookup authorities av 0.2
  pure (clamp01 (0.4 * tScore + 0.3 * recency_score years_old + 0.3 * aScore))

/-- `confidence_score_source` (engine.py lines 14-49). -/
def confidence_score_source (fi : FileInput) : Except String ScoreResult := do
  let data ← read_input_file fi
  if (← pyIn "error" data) then do
    let v ← pyIndex data "error"
    pure (.ret v)
  else do
    let cs ← pyGet data "confidence_score" (.obj [])
    let source_data ← pyGet cs "source" (.obj [])
    if !(pyTruthy source_data) then
      pure (.ret (.str "No source data provided"))
    else do
      let q ← computeScore source_data
      pure (.score q)

/-- `technical_terms` (engine.py line 70). -/
def technical_terms : List String := ["quantum", "tariff", "algorithm", "philosophy"]

/-- `domains` table (engine.py line 74). -/
def domains : List (String × ℤ) := [("science", 2), ("economics", 2), ("history", 1), ("general", 0)]

/-- `urgency_modifier` table (engine.py line 79). -/
def urgency_modifier : List (String × ℤ) := [("high", -1), ("normal", 0), ("low", 1)]

/-- The keyword tally of engine.py line 71:
`sum(1 for kw in keywords if kw.lower() in technical_terms)`. -/
def countTechnical : List JVal → Except String ℕ
  | [] => .ok 0
  | kw :: rest => do
    let s ← pyStrLower kw
    let n ← countTechnical rest
    .ok (if technical_terms.contains s then n + 1 else n)

/-- `decision_rule_engine` (engine.py lines 52-88). -/
def decision_rule_engine (fi : FileInput) : Except String JVal := do
  let data ← read_input_file fi
  if (← pyIn "error" data) then
    pyIndex data "error"
  else do
    let dr ← pyGet data "decision_rule" (.obj [])
    let query_metadata ← pyGet dr "query" (.obj [])
    if !(pyTruthy query_metadata) then
      pure (.str "No query data provided")
    else do
      let kwv ← pyGet query_metadata "keywords" (.arr [])
      let kws ← pyIter kwv
      let kcount ← countTechnical kws
      let dv ← pyGet query_metadata "domain" (.str "general")
      let dWeight ← hashLookupZ domains dv 0
      let uv ← pyGet query_metadata "urgency" (.str "normal")
      let uWeight ← hashLookupZ urgency_modifier uv 0
      let complexity_score : ℤ := (kcount : ℤ) + dWeight + uWeight
      pure (.str (if complexity_score ≤ 1 then "light"
                  else if complexity_score ≤ 3 then "moderate"
                  else "deep"))

/-- The loop of engine.py lines 109-114: shallow-copy each source, score it
by calling `confidence_score_source` on an in-memory dict, and retain the
sources whose score is a float of at least 0.7. -/
def highConfFilter : List JVal → Except String (List JVal)
  | [] => .ok []
  | source :: rest => do
    let temp_source ← pyCopy source
    let score ← confidence_score_source
      (.pyDict (.obj [("confidence_score", .obj [("source", temp_source)])]))
    let tail ← highConfFilter rest
    match score with
    | .score q => if q ≥ 0.7 then .ok (source :: tail) else .ok tail
    | .ret _ => .ok tail

/-- The tally loop of engine.py lines 120-127: lowercase each retained
source's `content`, count a support when it contains the lowercased claim,
otherwise an opposition when it contains `"not "` + the lowercased claim. -/
def tallySupportOppose (claimV : JVal) : List JVal → Except String (ℕ × ℕ)
  | [] => .ok (0, 0)
  | source :: rest => do
    let cv ← pyGet source "content" (.str "")
    let content ← pyStrLower cv
    let cl ← pyStrLower claimV
    let so ← tallySupportOppose claimV rest
    if strContains content cl then .ok (so.1 + 1, so.2)
    else if strContains content ("not " ++ cl) then .ok (so.1, so.2 + 1)
    else .ok so

/-- The classification of engine.py lines 132-138 applied to the support
share `support / (support + oppose)`. -/
def classifyShare (share : ℚ) : String :=
  if share ≥ 0.8 then "supported"
  else if share ≤ 0.2 then "disputed"
  else "no_consensus"

/-- `evaluate_consensus` (engine.py lines 91-138). -/
def evaluate_consensus (fi : FileInput) : Except String JVal := do
  let data ← read_input_file fi
  if (← pyIn "error" data) then
    pyIndex data "error"
  else do
    let consensus_data ← pyGet data "consensus_eval" (.obj [])
    let claimV ← pyGet consensus_data "claim" (.str "")
    let sourcesV ← pyGet consensus_data "sources" (.arr [])
    if !(pyTruthy claimV) || !(pyTruthy sourcesV) then
      pure (.str "No claim or sources provided")
    else do
      let sources ← pyIter sourcesV
      let high_conf_sources ← highConfFilter sources
      if high_conf_sources.isEmpty then
        pure (.str "no_consensus")
      else do
        let so ← tallySupportOppose claimV high_conf_sources
        let total := so.1 + so.2
        if total = 0 then
          pure (.str "no_consensus")
        else
          pure (.str (classifyShare ((so.1 : ℚ) / (total : ℚ))))

/-- `first_principles` table (engine.py lines 159-162). -/
def first_principles : List (String × String) :=
  [("economics", "Supply and demand govern prices."), ("physics", "Energy is conserved.")]

/-- Python `v[0]` as used at engine.py line 163 on a truthy value. -/
def pyIndexZero : JVal → Except String JVal
  | .arr (x :: _) => .ok x
  | .arr [] => .error "IndexError: list index out of range"
  | .str s =>
      match s.data with
      | c :: _ => .ok (.str (String.mk [c]))
      | [] => .error "IndexError: string index out of range"
  | .obj _ => .error "KeyError: 0"
  | _ => .error "TypeError: object is not subscriptable"

/-- The trend decision of engine.py lines 172-174 over the already-lowered
observation texts. -/
def trendFor (lowered : List String) : String :=
  if ((lowered.countP (fun s => strContains s "increase") : ℚ) / (lowered.length : ℚ)) > 0.5
  then "likely increases" else "may not increase"

/-- `hybrid_reasoning_engine` (engine.py lines 141-182). -/
def hybrid_reasoning_engine (fi : FileInput) : Except String JVal := do
  let data ← read_input_file fi
  if (← pyIn "error" data) then
    pyIndex data "error"
  else do
    let rd ← pyGet data "hybrid_reasoning" (.obj [])
    let problem ← pyGet rd "problem" (.str "")
    let data_points ← pyGet rd "data" (.arr [])
    if !(pyTruthy problem) then
      pure (.str "No problem provided")
    else do
      let domain ← if pyTruthy data_points then do
          let d0 ← pyIndexZero data_points
          pyGet d0 "domain" (.str "general")
        else
          pure (.str "general")
      let base_principle ← hashLookupS first_principles domain "General reasoning applies."
      let dlist ← pyIter data_points
      let observations ← dlist.mapM (fun d => pyGet d "observation" (.str ""))
      if observations.isEmpty then
        pure (.str ("Based on " ++ base_principle ++ ", insufficient data to conclude."))
      else do
        let lowered ← observations.mapM pyStrLower
        let trend := trendFor lowered
        if jvalEqStr domain "economics" then do
          let pl ← pyStrLower problem
          if strContains pl "price" then
            pure (.str (base_principle ++ " Data suggests " ++ pl ++ " " ++ trend ++ "."))
          else
            pure (.str (base_principle ++ " Data analysis inconclusive for " ++ pyFormat problem ++ "."))
        else
          pure (.str (base_principle ++ " Data analysis inconclusive for " ++ pyFormat problem ++ "."))

/-! Document builders used in the theorems below. -/

/-- A source record with explicit `type`, `authority` and `year` fields. -/
def sourceFields (t a : String) (y : ℚ) : JVal :=
  .obj [("type", .str t), ("authority", .str a), ("year", .num y)]

/-- A well-formed input record for `confidence_score_source`. -/
def sourceDoc (t a : String) (y : ℚ) : FileInput :=
  .path (.jsonDoc (.obj [("confidence_score", .obj [("source", sourceFields t a y)])]))

/-- A source record with no `year` field. -/
def sourceDocNoYear (t a : String) : FileInput :=
  .path (.jsonDoc (.obj [("confidence_score", .obj
    [("source", .obj [("type", .str t), ("authority", .str a)])])]))

/-- A well-formed input record for `decision_rule_engine`. -/
def queryDoc (kws : List String) (d u : String) : FileInput :=
  .path (.jsonDoc (.obj [("decision_rule", .obj [("query", .obj
    [("keywords", .arr (kws.map .str)), ("domain", .str d), ("urgency", .str u)])])]))

/-! Basic lemmas about the embedding. -/

/-- Bind on a successful `Except` computation applies the continuation. -/
theorem bind_ok_eq {α β : Type} (a : α) (f : α → Except String β) :
    (Except.ok a >>= f) = f a := rfl

/-- Bind on a failed `Except` computation propagates the failure. -/
theorem bind_error_eq {α β : Type} (e : String) (f : α → Except String β) :
    ((Except.error e : Except String α) >>= f) = .error e := rfl

/-- The clamp at engine.py line 49 lands in the unit interval. -/
theorem clamp01_mem (q : ℚ) : 0 ≤ clamp01 q ∧ clamp01 q ≤ 1 :=
  ⟨le_min (le_max_right q 0) zero_le_one, min_le_right _ 1⟩

/-- A string containing `"not " ++ c` also contains `c` itself. -/
theorem strContains_of_contains_not (h c : String)
    (hc : strContains h ("not " ++ c) = true) : strContains h c = true := by
  simp only [strContains, String.data_append, decide_eq_true_eq] at hc ⊢
  exact ((List.suffix_append "not ".data c.data).isInfix).trans hc

/-- A string occurring in the middle of a concatenation is contained in it. -/
theorem strContains_middle (a b c : String) : strContains (a ++ b ++ c) b = true := by
  simpa [strContains, String.data_append] using List.infix_append a.data b.data c.data

/-- Whatever score `computeScore` returns lies in the unit interval. -/
theorem computeScore_mem (sd : JVal) (q : ℚ) (h : computeScore sd = .ok q) :
    0 ≤ q ∧ q ≤ 1 := by
  simp only [computeScore, Bind.bind, Except.bind, pure, Except.pure] at h
  repeat' split at h
  all_goals try exact Except.noConfusion h
  all_goals injection h with h
  all_goals exact h ▸ clamp01_mem _

/-- C10: a primary, academic, current-year source scores exactly
0.4*0.9 + 0.3*1.0 + 0.3*0.9 = 0.93. -/
theorem primary_academic_current_year_scores :
    confidence_score_source (sourceDoc "primary" "academic" 2025) = .ok (.score 0.93) ∧
    (0.4 : ℚ) * 0.9 + 0.3 * 1.0 + 0.3 * 0.9 = 0.93 := by
  constructor
  · simp +decide [confidence_score_source, computeScore, sourceDoc, sourceFields,
      read_input_file, pyIn, pyGet, objFind, pyTruthy, hashLookup, alookup, pySubFrom,
      recency_score, clamp01, source_types, authorities, Bind.bind, Except.bind,
      Functor.map, Except.map, pure, Except.pure]
    norm_num [max_def, min_def]
  · norm_num

/-- C6: the recency component of `confidence_score_source` is
`max(0, 1 - years_old/5)` with `years_old = current_year - published_year`;
a missing `year` field is read as the current year (2025, the constant at
engine.py line 41) and yields recency component 1 (zero decay); a source
10 years old has recency component 0, not a negative value. -/
theorem confidence_recency_component :
    (∀ (t a : String) (y : ℚ), confidence_score_source (sourceDoc t a y) =
      .ok (.score (clamp01 (0.4 * alookup source_types t 0.3
        + 0.3 * recency_score (current_year - y) + 0.3 * alookup authorities a 0.2)))) ∧
    (∀ t a : String, confidence_score_source (sourceDocNoYear t a) =
      .ok (.score (clamp01 (0.4 * alookup source_types t 0.3
        + 0.3 * recency_score (current_year - current_year) + 0.3 * alookup authorities a 0.2)))) ∧
    recency_score (current_year - current_year) = 1 ∧
    recency_score 10 = 0 ∧
    (∀ y : ℚ, recency_score y = max 0 (1 - y / 5)) := by
  refine ⟨?_, ?_, ?_, ?_, fun y => rfl⟩
  · intro t a y
    simp +decide [confidence_score_source, computeScore, sourceDoc, sourceFields,
      read_input_file, pyIn, pyGet, objFind, pyTruthy, hashLookup, pySubFrom,
      current_year, Bind.bind, Except.bind, Functor.map, Except.map, pure, Except.pure]
  · intro t a
    simp +decide [confidence_score_source, computeScore, sourceDocNoYear,
      read_input_file, pyIn, pyGet, objFind, pyTruthy, hashLookup, pySubFrom,
      current_year, Bind.bind, Except.bind, Functor.map, Except.map, pure, Except.pure]
  · norm_num [recency_score, current_year]
  · norm_num [recency_score, max_def]

/-- C7: whenever `confidence_score_source` returns a numeric score rather
than a condition string, that score lies in [0, 1]. -/
theorem confidence_score_in_unit_interval (fi : FileInput) (q : ℚ)
    (h : confidence_score_source fi = .ok (.score q)) : 0 ≤ q ∧ q ≤ 1 := by
  simp only [confidence_score_source, Bind.bind, Except.bind, Functor.map, Except.map,
    pure, Except.pure] at h
  repeat' split at h
  all_goals try exact Except.noConfusion h
  all_goals injection h with h
  all_goals try exact ScoreResult.noConfusion h
  all_goals injection h with h
  all_goals rename_i heq
  all_goals exact h ▸ computeScore_mem _ _ heq

/-- Witness for C7 at a concrete input: the primary academic current-year
source, whose score is 0.93. -/
theorem confidence_score_in_unit_interval_witness : 0 ≤ (0.93 : ℚ) ∧ (0.93 : ℚ) ≤ 1 :=
  confidence_score_in_unit_interval (sourceDoc "primary" "academic" 2025) 0.93 (by
    simp +decide [confidence_score_source, computeScore, sourceDoc, sourceFields,
      read_input_file, pyIn, pyGet, objFind, pyTruthy, hashLookup, alookup, pySubFrom,
      recency_score, clamp01, source_types, authorities, Bind.bind, Except.bind,
      Functor.map, Except.map, pure, Except.pure]
    norm_num [max_def, min_def])

/-! Specification-side reading of the complexity rules, written from the
spec's words, to be compared with `decision_rule_engine`. -/

/-- Modelled from the spec: domain weight table `science: 2, economics: 2,
history: 1, general: 0`, default 0. -/
def specDomainWeight (d : String) : ℤ :=
  if d = "science" then 2 else if d = "economics" then 2 else if d = "history" then 1 else 0

/-- Modelled from the spec: urgency modifier `high: -1, normal: 0, low: 1`,
default 0. -/
def specUrgencyModifier (u : String) : ℤ :=
  if u = "high" then -1 else if u = "low" then 1 else 0

/-- Modelled from the spec: complexity is the count of keywords
case-insensitively matching the technical-term set, plus the domain weight,
plus the urgency modifier. -/
def specComplexity (kws : List String) (d u : String) : ℤ :=
  (kws.countP (fun k => technical_terms.contains (strLower k)) : ℤ)
    + specDomainWeight d + specUrgencyModifier u

/-- The keyword tally of the engine agrees with the spec-side count on any
list of string keywords. -/
theorem countTechnical_map_str (kws : List String) :
    countTechnical (kws.map .str) =
      .ok (kws.countP (fun k => technical_terms.contains (strLower k))) := by
  induction kws with
  | nil => rfl
  | cons k rest ih =>
    simp only [List.map, countTechnical, pyStrLower, Bind.bind, Except.bind, ih,
      List.countP_cons]
    split <;> rename_i hc
    · simp [hc]
    · simp [hc]

/-- The engine's domain table lookup agrees with the spec-side weight. -/
theorem domains_agree (d : String) : alookupZ domains d 0 = specDomainWeight d := by
  simp only [domains, alookupZ, specDomainWeight]
  by_cases h1 : d = "science" <;> by_cases h2 : d = "economics" <;>
    by_cases h3 : d = "history" <;> by_cases h4 : d = "general" <;>
    simp_all <;> simp [eq_comm, h1, h2, h3, h4]

/-- The engine's urgency table lookup agrees with the spec-side modifier. -/
theorem urgency_agree (u : String) : alookupZ urgency_modifier u 0 = specUrgencyModifier u := by
  simp only [urgency_modifier, alookupZ, specUrgencyModifier]
  by_cases h1 : u = "high" <;> by_cases h2 : u = "normal" <;> by_cases h3 : u = "low" <;>
    simp_all <;> simp [eq_comm, h1, h2, h3]

/-- C9: on any non-empty query record, `decision_rule_engine` computes the
spec's complexity score (keyword count + domain weight + urgency modifier)
and thresholds it: at most 1 gives light, 2 or 3 gives moderate, 4 or more
gives deep; in particular `["algorithm"]`, science, high scores 2 and is
moderate. -/
theorem decision_rule_engine_complexity :
    (∀ (kws : List String) (d u : String),
      decision_rule_engine (queryDoc kws d u) =
        .ok (.str (if specComplexity kws d u ≤ 1 then "light"
                   else if specComplexity kws d u ≤ 3 then "moderate"
                   else "deep"))) ∧
    specComplexity ["algorithm"] "science" "high" = 2 ∧
    decision_rule_engine (queryDoc ["algorithm"] "science" "high") = .ok (.str "moderate") := by
  have main : ∀ (kws : List String) (d u : String),
      decision_rule_engine (queryDoc kws d u) =
        .ok (.str (if specComplexity kws d u ≤ 1 then "light"
                   else if specComplexity kws d u ≤ 3 then "moderate"
                   else "deep")) := by
    intro kws d u
    simp +decide [decision_rule_engine, queryDoc, read_input_file, pyIn, pyGet, objFind,
      pyTruthy, pyIter, countTechnical_map_str, hashLookupZ, domains_agree, urgency_agree,
      specComplexity, Bind.bind, Except.bind, Functor.map, Except.map, pure, Except.pure,
      add_assoc]
  have hc : specComplexity ["algorithm"] "science" "high" = 2 := by decide
  refine ⟨main, hc, ?_⟩
  rw [main, hc]
  norm_num

/-! The support/oppose tally (engine.py lines 119-138). -/

/-- C2 counterexample: a retained source whose lowercased content contains
`"not "` + the lowercased claim is counted in the support tally, not the
oppose tally, because the support test runs first and matches. -/
theorem tally_not_claim_support_cex :
    strContains (strLower "sources say not prices rise") ("not " ++ strLower "prices rise") = true ∧
    tallySupportOppose (.str "prices rise")
      [.obj [("content", .str "sources say not prices rise")]] = .ok (1, 0) :=
  ⟨by rfl, by rfl⟩

/-- C2 amended: a retained source whose lowercased content contains
`"not "` + the lowercased claim is counted in the support tally (any string
containing the negation contains the claim, and the support test is checked
first, so the oppose branch cannot fire for it); a source whose content
contains neither substring contributes to neither tally. -/
theorem tally_support_first_amended (c content : String) (rest : List JVal) (s o : ℕ)
    (hrest : tallySupportOppose (.str c) rest = .ok (s, o)) :
    (strContains (strLower content) ("not " ++ strLower c) = true →
      tallySupportOppose (.str c) (.obj [("content", .str content)] :: rest) = .ok (s + 1, o)) ∧
    (strContains (strLower content) (strLower c) = false ∧
        strContains (strLower content) ("not " ++ strLower c) = false →
      tallySupportOppose (.str c) (.obj [("content", .str content)] :: rest) = .ok (s, o)) := by
  constructor
  · intro hnot
    have hcl := strContains_of_contains_not (strLower content) (strLower c) hnot
    simp [tallySupportOppose, pyGet, objFind, pyStrLower, Bind.bind, Except.bind,
      hrest, hcl]
  · rintro ⟨h1, h2⟩
    simp [tallySupportOppose, pyGet, objFind, pyStrLower, Bind.bind, Except.bind,
      hrest, h1, h2]

/-- Witness for the amended C2 at a concrete claim and content. -/
theorem tally_support_first_amended_witness :
    tallySupportOppose (.str "prices rise")
      [.obj [("content", .str "they say not prices rise")]] = .ok (0 + 1, 0) :=
  (tally_support_first_amended "prices rise" "they say not prices rise" [] 0 0 (by rfl)).1
    (by rfl)

/-- The oppose tally is always zero: the oppose branch would need the
content to contain the negation but not the claim, which is impossible. -/
theorem tally_oppose_eq_zero (c : String) (srcs : List JVal) (s o : ℕ)
    (h : tallySupportOppose (.str c) srcs = .ok (s, o)) : o = 0 := by
  induction srcs generalizing s o with
  | nil =>
    injection h with h
    have h2 : (0 : ℕ) = o := congrArg Prod.snd h
    exact h2.symm
  | cons src rest ih =>
    simp only [tallySupportOppose, Bind.bind, Except.bind] at h
    cases hget : pyGet src "content" (.str "") with
    | error e => rw [hget] at h; exact Except.noConfusion h
    | ok cv =>
      rw [hget] at h
      cases cv
      case str cs =>
        simp only [pyStrLower, Except.bind] at h
        cases hrest : tallySupportOppose (.str c) rest with
        | error e => rw [hrest] at h; exact Except.noConfusion h
        | ok so =>
          rw [hrest] at h
          by_cases hcl : strContains (strLower cs) (strLower c) = true
          · simp only [hcl, if_true] at h
            injection h with h
            have h2 : so.2 = o := congrArg Prod.snd h
            rw [← h2]
            exact ih so.1 so.2 (by rw [hrest])
          · by_cases hnot : strContains (strLower cs) ("not " ++ strLower c) = true
            · exact absurd (strContains_of_contains_not _ _ hnot) hcl
            · simp only [hcl, hnot, Bool.false_eq_true, if_false] at h
              injection h with h
              have h2 : so.2 = o := congrArg Prod.snd h
              rw [← h2]
              exact ih so.1 so.2 (by rw [hrest])
      all_goals simp [pyStrLower, Except.bind] at h

/-! `evaluate_consensus` can only output "disputed" by echoing an `error`
field (engine.py line 99), never from the classification logic. -/

/-- Scoring an in-memory dict raises: `open` receives a dict. -/
theorem confidence_score_source_pyDict (v : JVal) :
    confidence_score_source (.pyDict v) = .error openDictTypeError := rfl

/-- The high-confidence filter raises on any non-empty source list, because
each iteration hands an in-memory dict to `confidence_score_source`. -/
theorem highConfFilter_cons_error (s0 : JVal) (rest : List JVal) :
    ∃ e, highConfFilter (s0 :: rest) = .error e := by
  cases s0 <;> exact ⟨_, rfl⟩

/-- Iterating a truthy value never yields the empty list. -/
theorem pyIter_truthy_ne_nil (v : JVal) (l : List JVal)
    (hv : pyTruthy v = true) (hl : pyIter v = .ok l) : l ≠ [] := by
  cases v with
  | null => simp [pyTruthy] at hv
  | boolean b => simp [pyIter] at hl
  | num q => simp [pyIter] at hl
  | str s =>
    cases s with
    | mk d =>
      cases d with
      | nil => simp [pyTruthy] at hv
      | cons c cs =>
        injection hl with hl
        simp [← hl]
  | arr xs =>
    injection hl with hl
    subst hl
    simpa [pyTruthy, List.isEmpty_iff] using hv
  | obj fs =>
    cases fs with
    | nil => simp [pyTruthy] at hv
    | cons f ft =>
      injection hl with hl
      simp [← hl]

/-- C3 counterexample: an input record whose top-level `error` field is the
string "disputed" makes `evaluate_consensus` return "disputed" verbatim,
indistinguishable from a computed verdict. -/
theorem evaluate_consensus_disputed_echo_cex :
    evaluate_consensus (.path (.jsonDoc (.obj [("error", .str "disputed")]))) =
      .ok (.str "disputed") := rfl

/-- C3 amended: `evaluate_consensus` returns "disputed" only by echoing an
input record whose own `error` field is that string; the consensus logic
itself never produces it: the oppose tally is always zero, so whenever the
support+oppose tally is non-zero the support share is 1, which is never at
most 0.2 and always classifies as "supported". -/
theorem evaluate_consensus_disputed_only_echo :
    (∀ fi : FileInput, evaluate_consensus fi = .ok (.str "disputed") →
      ∃ j : JVal, fi = .path (.jsonDoc j) ∧ pyIndex j "error" = .ok (.str "disputed")) ∧
    (∀ (c : String) (srcs : List JVal) (s o : ℕ),
      tallySupportOppose (.str c) srcs = .ok (s, o) → o = 0) ∧
    (∀ s o : ℕ, o = 0 → s + o ≠ 0 →
      ¬(((s : ℚ) / (((s + o : ℕ) : ℚ))) ≤ 0.2) ∧
      classifyShare ((s : ℚ) / (((s + o : ℕ) : ℚ))) = "supported") := by
  refine ⟨?_, tally_oppose_eq_zero, ?_⟩
  · intro fi h
    match fi with
    | .pyDict d =>
      rw [show evaluate_consensus (.pyDict d) = .error openDictTypeError from rfl] at h
      exact Except.noConfusion h
    | .path .missing =>
      rw [show evaluate_consensus (.path .missing) = .ok (.str "File not found") from rfl] at h
      injection h with h
      injection h with h
      exact absurd h (by decide)
    | .path .invalidJson =>
      rw [show evaluate_consensus (.path .invalidJson) = .ok (.str "Invalid JSON format") from rfl] at h
      injection h with h
      injection h with h
      exact absurd h (by decide)
    | .path (.jsonDoc j) =>
      refine ⟨j, rfl, ?_⟩
      simp only [evaluate_consensus, read_input_file, bind_ok_eq] at h
      cases hIn : pyIn "error" j with
      | error e => rw [hIn, bind_error_eq] at h; exact Except.noConfusion h
      | ok b =>
        rw [hIn] at h
        simp only [bind_ok_eq] at h
        cases b with
        | true => simpa using h
        | false =>
          simp only [Bool.false_eq_true, if_false] at h
          cases hcd : pyGet j "consensus_eval" (.obj []) with
          | error e => rw [hcd, bind_error_eq] at h; exact Except.noConfusion h
          | ok cd =>
            rw [hcd] at h
            simp only [bind_ok_eq] at h
            cases hclv : pyGet cd "claim" (.str "") with
            | error e => rw [hclv, bind_error_eq] at h; exact Except.noConfusion h
            | ok claimV =>
              rw [hclv] at h
              simp only [bind_ok_eq] at h
              cases hsv : pyGet cd "sources" (.arr []) with
              | error e => rw [hsv, bind_error_eq] at h; exact Except.noConfusion h
              | ok sourcesV =>
                rw [hsv] at h
                simp only [bind_ok_eq] at h
                by_cases ht : (!pyTruthy claimV || !pyTruthy sourcesV) = true
                · simp only [ht, if_true] at h
                  simp only [pure, Except.pure] at h
                  injection h with h
                  injection h with h
                  exact absurd h (by decide)
                · simp only [ht, Bool.false_eq_true, if_false] at h
                  have hstruthy : pyTruthy sourcesV = true := by
                    have ht2 : (!pyTruthy claimV || !pyTruthy sourcesV) = false :=
                      Bool.not_eq_true _ ▸ ht
                    rcases Bool.or_eq_false_iff.mp ht2 with ⟨h1, h2⟩
                    simpa using h2
                  cases hit : pyIter sourcesV with
                  | error e => rw [hit, bind_error_eq] at h; exact Except.noConfusion h
                  | ok srcList =>
                    rw [hit] at h
                    simp only [bind_ok_eq] at h
                    cases srcList with
                    | nil => exact absurd rfl (pyIter_truthy_ne_nil _ _ hstruthy hit)
                    | cons x xs =>
                      obtain ⟨e, he⟩ := highConfFilter_cons_error x xs
                      rw [he, bind_error_eq] at h
                      exact Except.noConfusion h
  · intro s o ho hs
    subst ho
    have hs0 : s ≠ 0 := by simpa using hs
    have hshare : ((s : ℚ) / (((s + 0 : ℕ) : ℚ))) = 1 := by
      rw [Nat.add_zero]
      exact div_self (by exact_mod_cast hs0)
    rw [hshare]
    refine ⟨by norm_num, by norm_num [classifyShare]⟩

/-- Witness for the amended C3: the echo record discharges the hypothesis
of the first component. -/
theorem evaluate_consensus_disputed_only_echo_witness :
    ∃ j : JVal, FileInput.path (.jsonDoc (.obj [("error", .str "disputed")])) =
        .path (.jsonDoc j) ∧ pyIndex j "error" = .ok (.str "disputed") :=
  evaluate_consensus_disputed_only_echo.1 (.path (.jsonDoc (.obj [("error", .str "disputed")])))
    (by rfl)

/-! The dict-for-path bug (engine.py line 112): every consensus query with
a non-empty claim and a non-empty source list raises a `TypeError`. -/

/-- A fully well-typed consensus query: non-empty claim, one well-formed
high-quality source whose content affirms the claim. -/
def consensusQueryDoc : FileInput := .path (.jsonDoc (.obj [("consensus_eval", .obj
  [("claim", .str "prices rise"),
   ("sources", .arr [.obj [("type", .str "primary"), ("authority", .str "academic"),
     ("year", .num 2025), ("content", .str "strong evidence that prices rise")]])])]))

/-- C1: on a well-typed consensus query, `evaluate_consensus` does not
return a verdict or a condition string: the call at engine.py line 112
hands an in-memory dict to `confidence_score_source`, whose `open` raises
an uncaught `TypeError` that propagates to the caller. -/
theorem evaluate_consensus_raises_on_wellformed_query :
    evaluate_consensus consensusQueryDoc = .error openDictTypeError := rfl

/-- A single low-quality source: opinion / blog / 25 years old, so its
intended confidence score is 0.4*0.3 + 0.3*0 + 0.3*0.2 = 0.18 < 0.7. -/
def lowConfSource : JVal := .obj [("type", .str "opinion"), ("authority", .str "blog"),
  ("year", .num 2000), ("content", .str "inflation falls")]

/-- Consensus query whose only source is below the confidence gate. -/
def lowConfQueryDoc : FileInput := .path (.jsonDoc (.obj [("consensus_eval", .obj
  [("claim", .str "inflation falls"), ("sources", .arr [lowConfSource])])]))

/-- C4: a query in which no source reaches the 0.7 gate should yield
"no_consensus", but `evaluate_consensus` raises the dict-for-path
`TypeError` instead; scoring the same source through the loader path
confirms it is below the gate (0.18 < 0.7). -/
theorem evaluate_consensus_low_confidence_raises :
    evaluate_consensus lowConfQueryDoc = .error openDictTypeError ∧
    confidence_score_source
      (.path (.jsonDoc (.obj [("confidence_score", .obj [("source", lowConfSource)])]))) =
      .ok (.score 0.18) ∧
    ¬((0.18 : ℚ) ≥ 0.7) := by
  refine ⟨rfl, ?_, by norm_num⟩
  simp +decide [confidence_score_source, computeScore, lowConfSource, read_input_file,
    pyIn, pyGet, objFind, pyTruthy, hashLookup, alookup, pySubFrom, recency_score, clamp01,
    source_types, authorities, Bind.bind, Except.bind, Functor.map, Except.map,
    pure, Except.pure]
  norm_num [max_def, min_def]

/-- The spec's supported-consensus example source: primary / academic /
current year, content containing the claim "prices rise". -/
def supportedSource : JVal := .obj [("type", .str "primary"), ("authority", .str "academic"),
  ("year", .num 2025), ("content", .str "data shows prices rise this year")]

/-- The spec's supported-consensus example query. -/
def supportedQueryDoc : FileInput := .path (.jsonDoc (.obj [("consensus_eval", .obj
  [("claim", .str "prices rise"), ("sources", .arr [supportedSource])])]))

/-- C5: the spec's example (one high-confidence supporting source, no
opposition) should classify as "supported", and indeed the intended
pipeline would: the source scores 0.93 ≥ 0.7, the tally is (1, 0), and a
support share of 1 classifies as "supported"; but `evaluate_consensus`
itself raises the dict-for-path `TypeError` before any of that. -/
theorem evaluate_consensus_supported_example_raises :
    evaluate_consensus supportedQueryDoc = .error openDictTypeError ∧
    confidence_score_source
      (.path (.jsonDoc (.obj [("confidence_score", .obj [("source", supportedSource)])]))) =
      .ok (.score 0.93) ∧
    ((0.93 : ℚ) ≥ 0.7) ∧
    tallySupportOppose (.str "prices rise") [supportedSource] = .ok (1, 0) ∧
    classifyShare ((1 : ℚ) / ((1 : ℕ) : ℚ)) = "supported" := by
  refine ⟨rfl, ?_, by norm_num, by rfl, by norm_num [classifyShare]⟩
  simp +decide [confidence_score_source, computeScore, supportedSource, read_input_file,
    pyIn, pyGet, objFind, pyTruthy, hashLookup, alookup, pySubFrom, recency_score, clamp01,
    source_types, authorities, Bind.bind, Except.bind, Functor.map, Except.map,
    pure, Except.pure]
  norm_num [max_def, min_def]

/-! The hybrid reasoning engine (engine.py lines 141-182). -/

/-- A data point carrying only an observation. -/
def obsPoint (s : String) : JVal := .obj [("observation", .str s)]

/-- A data point tagged with the economics domain. -/
def econPoint (s : String) : JVal := .obj [("domain", .str "economics"), ("observation", .str s)]

/-- A well-formed input record for `hybrid_reasoning_engine`. -/
def reasoningDoc (problem : String) (pts : List JVal) : FileInput :=
  .path (.jsonDoc (.obj [("hybrid_reasoning", .obj
    [("problem", .str problem), ("data", .arr pts)])]))

/-- Extracting `observation` from plain observation points succeeds. -/
theorem mapM_obsPoints (rest : List String) :
    (rest.map obsPoint).mapM (fun d => pyGet d "observation" (.str "")) =
      .ok (rest.map .str) := by
  induction rest with
  | nil => rfl
  | cons x xs ih =>
    rw [List.map_cons, List.mapM_cons,
      show pyGet (obsPoint x) "observation" (.str "") = .ok (.str x) from rfl,
      bind_ok_eq, ih, bind_ok_eq]
    rfl

/-- Lowering a list of string values succeeds and lowers each string. -/
theorem mapM_strLower_strs (l : List String) :
    (l.map JVal.str).mapM pyStrLower = .ok (l.map strLower) := by
  induction l with
  | nil => rfl
  | cons x xs ih =>
    rw [List.map_cons, List.mapM_cons,
      show pyStrLower (.str x) = .ok (strLower x) from rfl,
      bind_ok_eq, ih, bind_ok_eq]
    rfl

/-- On an economics-tagged query whose problem mentions "price", the engine
returns the principle plus "Data suggests", the lowercased problem and the
computed trend phrase. -/
theorem hybrid_engine_econ_eq (problem o0 : String) (rest : List String)
    (hp : problem ≠ "") (hpr : strContains (strLower problem) "price" = true) :
    hybrid_reasoning_engine (reasoningDoc problem (econPoint o0 :: rest.map obsPoint)) =
      .ok (.str ("Supply and demand govern prices. Data suggests " ++ strLower problem
        ++ " " ++ trendFor ((o0 :: rest).map strLower) ++ ".")) := by
  have hobs : List.mapM (fun d => pyGet d "observation" (.str ""))
      (econPoint o0 :: rest.map obsPoint) = .ok (.str o0 :: rest.map .str) := by
    rw [List.mapM_cons,
      show pyGet (econPoint o0) "observation" (.str "") = .ok (.str o0) from rfl,
      bind_ok_eq, mapM_obsPoints, bind_ok_eq]
    rfl
  have hlow : List.mapM pyStrLower (JVal.str o0 :: rest.map JVal.str) =
      .ok (strLower o0 :: rest.map strLower) := by
    rw [List.mapM_cons, show pyStrLower (.str o0) = .ok (strLower o0) from rfl,
      bind_ok_eq, mapM_strLower_strs, bind_ok_eq]
    rfl
  have hpt : pyTruthy (.str problem) = true := by simp [pyTruthy, hp]
  rw [hybrid_reasoning_engine, reasoningDoc, read_input_file]
  rw [bind_ok_eq]
  rw [show pyIn "error" (.obj [("hybrid_reasoning", .obj [("problem", .str problem),
      ("data", .arr (econPoint o0 :: rest.map obsPoint))])]) = .ok false from rfl]
  simp only [bind_ok_eq]
  rw [if_neg Bool.false_ne_true]
  rw [show pyGet (.obj [("hybrid_reasoning", .obj [("problem", .str problem),
      ("data", .arr (econPoint o0 :: rest.map obsPoint))])]) "hybrid_reasoning" (.obj []) =
    .ok (.obj [("problem", .str problem),
      ("data", .arr (econPoint o0 :: rest.map obsPoint))]) from rfl]
  simp only [bind_ok_eq]
  rw [show pyGet (.obj [("problem", .str problem),
      ("data", .arr (econPoint o0 :: rest.map obsPoint))]) "problem" (.str "") =
    .ok (.str problem) from rfl]
  simp only [bind_ok_eq]
  rw [show pyGet (.obj [("problem", .str problem),
      ("data", .arr (econPoint o0 :: rest.map obsPoint))]) "data" (.arr []) =
    .ok (.arr (econPoint o0 :: rest.map obsPoint)) from rfl]
  simp only [bind_ok_eq]
  rw [hpt]
  simp only [Bool.not_true]
  rw [if_neg Bool.false_ne_true]
  rw [show pyTruthy (.arr (econPoint o0 :: rest.map obsPoint)) = true from rfl]
  rw [if_pos rfl]
  rw [show pyIndexZero (.arr (econPoint o0 :: rest.map obsPoint)) = .ok (econPoint o0) from rfl]
  rw [bind_ok_eq]
  rw [show pyGet (econPoint o0) "domain" (.str "general") = .ok (.str "economics") from rfl]
  simp only [bind_ok_eq]
  rw [show hashLookupS first_principles (.str "economics") "General reasoning applies." =
    .ok "Supply and demand govern prices." from rfl]
  simp only [bind_ok_eq]
  rw [show pyIter (.arr (econPoint o0 :: rest.map obsPoint)) =
    .ok (econPoint o0 :: rest.map obsPoint) from rfl]
  simp only [bind_ok_eq]
  rw [hobs]
  simp only [bind_ok_eq]
  rw [show (JVal.str o0 :: rest.map JVal.str).isEmpty = false from rfl]
  rw [if_neg Bool.false_ne_true]
  rw [hlow]
  simp only [bind_ok_eq]
  rw [show jvalEqStr (.str "economics") "economics" = true from rfl]
  rw [if_pos rfl]
  rw [show pyStrLower (.str problem) = .ok (strLower problem) from rfl]
  simp only [bind_ok_eq]
  rw [hpr]
  rw [if_pos rfl]
  rfl

set_option maxRecDepth 200000 in
/-- C8 counterexample: the spec's own example — problem
"Will oil prices rise?", an economics data point and two of three
observations containing "increase" — produces a conclusion embedding only
the lowercased problem: the verbatim problem text does not occur in it. -/
theorem hybrid_problem_not_verbatim_cex :
    hybrid_reasoning_engine (reasoningDoc "Will oil prices rise?"
      (econPoint "oil price increase in Q1" ::
        (["another increase reported", "supply steady"] : List String).map obsPoint)) =
      .ok (.str "Supply and demand govern prices. Data suggests will oil prices rise? likely increases.") ∧
    strContains
      "Supply and demand govern prices. Data suggests will oil prices rise? likely increases."
      "Will oil prices rise?" = false ∧
    strContains
      "Supply and demand govern prices. Data suggests will oil prices rise? likely increases."
      "likely increases" = true := by
  refine ⟨?_, by rfl, by rfl⟩
  have h := hybrid_engine_econ_eq "Will oil prices rise?" "oil price increase in Q1"
    ["another increase reported", "supply steady"] (by decide) (by rfl)
  rw [h]
  have hcount : ((["oil price increase in Q1", "another increase reported",
      "supply steady"] : List String).map strLower).countP
        (fun s => strContains s "increase") = 2 := by rfl
  have hlen : ((["oil price increase in Q1", "another increase reported",
      "supply steady"] : List String).map strLower).length = 3 := by rfl
  have hcond : (((((["oil price increase in Q1", "another increase reported",
      "supply steady"] : List String).map strLower).countP
        (fun s => strContains s "increase") : ℕ)) : ℚ) /
      ((((["oil price increase in Q1", "another increase reported",
      "supply steady"] : List String).map strLower).length : ℕ) : ℚ) > 0.5 := by
    rw [hcount, hlen]
    norm_num
  have ht : trendFor ((("oil price increase in Q1" ::
      ["another increase reported", "supply steady"]) : List String).map strLower) =
      "likely increases" := by
    rw [trendFor, if_pos hcond]
  rw [ht]
  rfl

/-- C8 amended: for an economics-tagged query whose problem mentions
"price" (case-insensitively) and whose observations are strings, the
conclusion embeds the LOWERCASED problem text and the trend phrase; and the
trend phrase is "likely increases" exactly when the fraction of
observations containing the case-insensitive substring "increase" strictly
exceeds 0.5, and "may not increase" otherwise. -/
theorem hybrid_conclusion_embeds_lowered_problem :
    (∀ (problem o0 : String) (rest : List String),
      problem ≠ "" →
      strContains (strLower problem) "price" = true →
      hybrid_reasoning_engine (reasoningDoc problem (econPoint o0 :: rest.map obsPoint)) =
        .ok (.str ("Supply and demand govern prices. Data suggests " ++ strLower problem
          ++ " " ++ trendFor ((o0 :: rest).map strLower) ++ ".")) ∧
      strContains ("Supply and demand govern prices. Data suggests " ++ strLower problem
          ++ " " ++ trendFor ((o0 :: rest).map strLower) ++ ".") (strLower problem) = true ∧
      strContains ("Supply and demand govern prices. Data suggests " ++ strLower problem
          ++ " " ++ trendFor ((o0 :: rest).map strLower) ++ ".")
        (trendFor ((o0 :: rest).map strLower)) = true) ∧
    (∀ l : List String, l ≠ [] →
      (trendFor (l.map strLower) = "likely increases" ↔
        ((l.countP fun s => strContains (strLower s) "increase" : ℕ) : ℚ) / (l.length : ℚ) > 0.5)) := by
  constructor
  · intro problem o0 rest hp hpr
    refine ⟨hybrid_engine_econ_eq problem o0 rest hp hpr, ?_, ?_⟩
    · have he : "Supply and demand govern prices. Data suggests " ++ strLower problem
          ++ " " ++ trendFor ((o0 :: rest).map strLower) ++ "." =
          "Supply and demand govern prices. Data suggests " ++ strLower problem
          ++ (" " ++ trendFor ((o0 :: rest).map strLower) ++ ".") := by
        simp [String.append_assoc]
      rw [he]
      exact strContains_middle _ _ _
    · have he : "Supply and demand govern prices. Data suggests " ++ strLower problem
          ++ " " ++ trendFor ((o0 :: rest).map strLower) ++ "." =
          ("Supply and demand govern prices. Data suggests " ++ strLower problem ++ " ")
          ++ trendFor ((o0 :: rest).map strLower) ++ "." := by
        simp [String.append_assoc]
      rw [he]
      exact strContains_middle _ _ _
  · intro l hl
    rw [trendFor]
    simp only [List.countP_map, List.length_map, Function.comp]
    split
    · rename_i hcond
      exact iff_of_true rfl hcond
    · rename_i hcond
      exact iff_of_false (by decide) hcond

/-- Witness for the amended C8 at the spec's example input. -/
theorem hybrid_conclusion_embeds_lowered_problem_witness :
    hybrid_reasoning_engine (reasoningDoc "Will oil prices rise?"
        (econPoint "saw an increase in output" ::
          (["price increase again", "flat demand"] : List String).map obsPoint)) =
      .ok (.str ("Supply and demand govern prices. Data suggests "
        ++ strLower "Will oil prices rise?" ++ " "
        ++ trendFor ((("saw an increase in output" :: ["price increase again", "flat demand"]) :
            List String).map strLower) ++ ".")) ∧
    strContains ("Supply and demand govern prices. Data suggests "
        ++ strLower "Will oil prices rise?" ++ " "
        ++ trendFor ((("saw an increase in output" :: ["price increase again", "flat demand"]) :
            List String).map strLower) ++ ".") (strLower "Will oil prices rise?") = true ∧
    strContains ("Supply and demand govern prices. Data suggests "
        ++ strLower "Will oil prices rise?" ++ " "
        ++ trendFor ((("saw an increase in output" :: ["price increase again", "flat demand"]) :
            List String).map strLower) ++ ".")
      (trendFor ((("saw an increase in output" :: ["price increase again", "flat demand"]) :
            List String).map strLower)) = true :=
  hybrid_conclusion_embeds_lowered_problem.1 "Will oil prices rise?"
    "saw an increase in output" ["price increase again", "flat demand"] (by decide) (by rfl)
